import Mathlib

/-
Verification of the qiita.py publishing utility against its specification.

The Python source (src/qiita.py) is shallowly embedded below: pure string
manipulation is translated to executable Lean functions over `List Char`
and `String`; the stateful parts (stdin, HTTP transport) are made explicit
as parameters (the pending input line, the responses the server would give)
and as a returned trace of issued requests; Python exceptions become
`Except` errors.
-/

namespace Qiita

/-- Decidable equality for `Except`, needed to evaluate the embedded
functions on concrete inputs. -/
instance instDecEqExcept {ε α : Type} [DecidableEq ε] [DecidableEq α] :
    DecidableEq (Except ε α)
  | .error e, .error f =>
    if h : e = f then .isTrue (congrArg Except.error h)
    else .isFalse (fun he => h (Except.error.inj he))
  | .error _, .ok _ => .isFalse (fun he => Except.noConfusion he)
  | .ok _, .error _ => .isFalse (fun he => Except.noConfusion he)
  | .ok a, .ok b =>
    if h : a = b then .isTrue (congrArg Except.ok h)
    else .isFalse (fun he => h (Except.ok.inj he))

/-- Newline character, written via its code point. -/
def chNl : Char := Char.ofNat 10

/-- Colon character. -/
def chColon : Char := Char.ofNat 58

/-- Space character. -/
def chSpace : Char := Char.ofNat 32

/-- Slash character. -/
def chSlash : Char := Char.ofNat 47

/-- Python `str.strip()` whitespace test: space, tab, newline, carriage
return, vertical tab, form feed. -/
def isPyWs (c : Char) : Bool :=
  c = chSpace || c = Char.ofNat 9 || c = chNl || c = Char.ofNat 13 ||
    c = Char.ofNat 11 || c = Char.ofNat 12

/-- Python `str.strip()` on a character list: drop whitespace from both ends. -/
def stripList (l : List Char) : List Char :=
  ((l.dropWhile isPyWs).reverse.dropWhile isPyWs).reverse

/-- Python `str.strip()` on a string. -/
def pyStrip (s : String) : String := String.mk (stripList s.data)

/-- Python `str.lower()` (ASCII range, as relevant to the y/yes check). -/
def pyLower (s : String) : String := String.mk (s.data.map Char.toLower)

/-- Python `str.split(sep)` for a one-character separator: splits on every
occurrence, keeping empty fragments; the empty input yields one empty
fragment. -/
def pySplitCh (sep : Char) : List Char → List (List Char)
  | [] => [[]]
  | c :: cs =>
    if c = sep then [] :: pySplitCh sep cs
    else
      match pySplitCh sep cs with
      | [] => [[c]]
      | g :: gs => (c :: g) :: gs

/-- String version of `pySplitCh`. -/
def pySplitStr (sep : Char) (s : String) : List String :=
  (pySplitCh sep s.data).map String.mk

/-- Python `str.split(sep, 1)` for a one-character separator: split at the
first occurrence only; `none` when the separator is absent. -/
def splitOnceCh (sep : Char) : List Char → Option (List Char × List Char)
  | [] => none
  | c :: cs =>
    if c = sep then some ([], cs)
    else (splitOnceCh sep cs).map (fun p => (c :: p.1, p.2))

/-- Index of the first newline in a character list (Python `str.find`,
with `none` standing for Python's -1). -/
def findNl : List Char → Option Nat
  | [] => none
  | c :: cs => if c = chNl then some 0 else (findNl cs).map (· + 1)

/-- Whether `needle` is a leading segment of `hay`. -/
def listHasLead : List Char → List Char → Bool
  | [], _ => true
  | _ :: _, [] => false
  | a :: as, b :: bs => a = b && listHasLead as bs

/-- Whether `needle` occurs contiguously somewhere in the list. -/
def listHasSub (needle : List Char) : List Char → Bool
  | [] => listHasLead needle []
  | b :: bs => listHasLead needle (b :: bs) || listHasSub needle bs

/-- Python `needle in hay` substring test. -/
def pyIn (needle hay : String) : Bool := listHasSub needle.data hay.data

/-- Index of the last occurrence of a character (Python `str.rfind`, with
`none` for -1). -/
def rfindCh (c : Char) : List Char → Option Nat
  | [] => none
  | a :: as =>
    match rfindCh c as with
    | some i => some (i + 1)
    | none => if a = c then some 0 else none

/-- The item id taken in `patch` (src/qiita.py line 190):
`header.url[header.url.rfind('/') + 1 :]` — everything after the last
slash, or the whole string when no slash occurs (rfind = -1). -/
def trailSeg (u : String) : String :=
  match rfindCh chSlash u.data with
  | some i => String.mk (u.data.drop (i + 1))
  | none => u

/-- The `ArticleHeader` dataclass of src/qiita.py (lines 86-94). Its custom
`def __init__(self): pass` leaves every field unassigned: `title` and `url`
then resolve to the class-attribute default `None`, while `tags` (declared
with `default_factory=list`, whose class attribute the dataclass machinery
deletes) is simply missing until a `tags:` line assigns it — reading it on
a fresh instance raises `AttributeError`. `tags = none` models that missing
attribute. -/
structure ArticleHeader where
  title : Option String := none
  url : Option String := none
  tags : Option (List String) := none
deriving DecidableEq, Repr

/-- A freshly constructed `ArticleHeader()`. -/
def emptyHeader : ArticleHeader := ⟨none, none, none⟩

/-- Tag list built from a `tags:` value (src/qiita.py line 132):
`[x.strip() for x in value.split(' ')]`. -/
def splitTags (v : String) : List String :=
  (pySplitCh chSpace v.data).map (fun g => String.mk (stripList g))

/-- The body of `parse_kv` (src/qiita.py lines 117-134) as a pure update of
the header. The `line` number argument of the Python function is only used
in a log message and carries no observable effect, so it is dropped here. -/
def applyKV (h : ArticleHeader) (key value : String) : ArticleHeader :=
  if key = "0file" then h
  else if key = "0title" then { h with title := some value }
  else if key = "0url" then
    if pyIn "TODO" value then h else { h with url := some value }
  else if key = "tags" then { h with tags := some (splitTags value) }
  else h

/-- The errors `parse_header` can raise. `qiitaLine1NotStart` and
`qiitaEndNotFound` are the two `QiitaException`s of the source (lines 100
and 114); `valueErrorNotEnoughValues` is the bare Python `ValueError`
("not enough values to unpack") raised by the tuple unpacking on line 110
when a line contains no colon — it is not a `QiitaException` and carries no
line number. -/
inductive ParseErr where
  | qiitaLine1NotStart (fst : String)
  | valueErrorNotEnoughValues
  | qiitaEndNotFound
deriving DecidableEq, Repr

/-- Which of the parse errors are instances of the program's own
`QiitaException` class (the `ValueError` is a Python built-in). -/
def isQiitaException : ParseErr → Bool
  | .qiitaLine1NotStart _ => true
  | .valueErrorNotEnoughValues => false
  | .qiitaEndNotFound => true

/-- Key/value of one metadata line (src/qiita.py line 110):
`key, value = (x.strip() for x in line.split(':', 1))`; `none` when the
line has no colon (where Python raises `ValueError`). -/
def kvOf (line : String) : Option (String × String) :=
  (splitOnceCh chColon line.data).map
    (fun p => (String.mk (stripList p.1), String.mk (stripList p.2)))

/-- The loop of `parse_header` (src/qiita.py lines 106-114): each line is
either the end marker (success), a colon-free line (ValueError), or a
key/value pair applied to the header; an exhausted document raises
the "--> not found" `QiitaException`. `i` is the line counter (used only
for logging in the source). -/
def processLines (i : Nat) (h : ArticleHeader) :
    List String → Except ParseErr ArticleHeader
  | [] => .error .qiitaEndNotFound
  | line :: rest =>
    if line = "-->" then .ok h
    else
      match kvOf line with
      | none => .error .valueErrorNotEnoughValues
      | some kv => processLines (i + 1) (applyKV h kv.1 kv.2) rest

/-- Python `md[:md.find('\n')]` (src/qiita.py line 98): the first line, or
`md[:-1]` (drop the last character) when the document has no newline. -/
def firstLineField (md : String) : String :=
  match findNl md.data with
  | some p => String.mk (md.data.take p)
  | none => String.mk (md.data.take (md.data.length - 1))

/-- Python `md[md.find('\n') + 1 :].split('\n')` (src/qiita.py line 106):
the lines following the first newline; when there is no newline the slice
starts at 0 and yields the whole document. -/
def docLines (md : String) : List String :=
  match findNl md.data with
  | some p => pySplitStr chNl (String.mk (md.data.drop (p + 1)))
  | none => pySplitStr chNl md

/-- The source function `parse_header` (src/qiita.py lines 97-114). -/
def parse_header (md : String) : Except ParseErr ArticleHeader :=
  let fst := firstLineField md
  if fst ≠ "<!--" then .error (.qiitaLine1NotStart fst)
  else processLines 2 emptyHeader (docLines md)

/-- The remote identifier of the spec's data model: derived from the stored
URL's trailing path segment, exactly as `patch` addresses the item
(src/qiita.py line 190). -/
def remoteId (h : ArticleHeader) : Option String := h.url.map trailSeg

/-- The source function `confirm` (src/qiita.py lines 140-151). Everything
it prints is log output; its decision depends only on the line read from
stdin, passed here as `inputLine`:
`tmp = input().strip()`; accept unless `tmp.lower() not in ['y', 'yes']`. -/
def confirm (inputLine : String) : Bool :=
  let tmp := pyStrip inputLine
  if pyLower tmp ∉ ["y", "yes"] then false else true

/-- One element of the submitted tag list: `{'name': x, 'versions': []}`
(src/qiita.py lines 162 and 184). -/
structure TagPayload where
  name : String
  versions : List String
deriving DecidableEq, Repr

/-- The JSON payload `{'body': md, 'tags': tags, 'title': header.title}`
built by both `post` and `patch` (src/qiita.py lines 163-167, 185-189). -/
structure Payload where
  body : String
  tags : List TagPayload
  title : Option String
deriving DecidableEq, Repr

/-- One HTTP request issued through the transport, with its URL, payload
(for the mutating verbs) and bearer token. -/
inductive Request where
  | get (url : String) (token : String)
  | post (url : String) (payload : Payload) (token : String)
  | patchReq (url : String) (payload : Payload) (token : String)
deriving DecidableEq, Repr

/-- Python exceptions escaping `post`/`patch`: the `AttributeError` from
reading the never-assigned `tags` attribute, the `TypeError` from
subscripting `header.url` when it is `None`, and `requests`'
`HTTPError` from `raise_for_status()`. -/
inductive PyErr where
  | attributeErrorTags
  | typeErrorNoneUrl
  | httpError (status : Nat)
deriving DecidableEq, Repr

/-- The HTTP status the (modelled) server answers with. -/
structure HttpResp where
  status : Nat
deriving DecidableEq, Repr

/-- `requests.Response.raise_for_status()` raises for 4xx and 5xx. -/
def raisesForStatus (s : Nat) : Bool := 400 ≤ s && s < 600

/-- The source function `post` (src/qiita.py lines 154-175). `stdin` is the
pending confirmation input; `resp` the server's answer to the creation
request. Returns the exit status (or escaped exception) together with the
trace of issued requests. Reading `header.tags` on a header whose `tags`
attribute was never assigned raises `AttributeError` (line 162), before the
confirmation prompt. -/
def post (token : String) (header : ArticleHeader) (md : String)
    (stdin : String) (resp : HttpResp) : Except PyErr Int × List Request :=
  match header.tags with
  | none => (.error .attributeErrorTags, [])
  | some tg =>
    let tags := tg.map (fun x => TagPayload.mk x [])
    let jsn : Payload := ⟨md, tags, header.title⟩
    if confirm stdin then
      let reqs := [Request.post "https://qiita.com/api/v2/items" jsn token]
      if raisesForStatus resp.status then (.error (.httpError resp.status), reqs)
      else (.ok 0, reqs)
    else (.ok 1, [])

/-- The source function `patch` (src/qiita.py lines 178-212). `getResp` and
`patchResp` are the server's answers to the read and to the update. The
scratch-file writes and the icdiff subprocess (lines 196-203) have no
observable effect on the result or the HTTP trace and are not modelled. -/
def patch (token : String) (header : ArticleHeader) (md : String)
    (stdin : String) (getResp patchResp : HttpResp) :
    Except PyErr Int × List Request :=
  match header.tags with
  | none => (.error .attributeErrorTags, [])
  | some tg =>
    let tags := tg.map (fun x => TagPayload.mk x [])
    let jsn : Payload := ⟨md, tags, header.title⟩
    match header.url with
    | none => (.error .typeErrorNoneUrl, [])
    | some u =>
      let item := trailSeg u
      let getReq := Request.get ("https://qiita.com/api/v2/items/" ++ item) token
      if raisesForStatus getResp.status then
        (.error (.httpError getResp.status), [getReq])
      else if confirm stdin then
        let preq :=
          Request.patchReq ("https://qiita.com/api/v2/items/" ++ item) jsn token
        if raisesForStatus patchResp.status then
          (.error (.httpError patchResp.status), [getReq, preq])
        else (.ok 0, [getReq, preq])
      else (.ok 1, [getReq])

/-- Which of the two publishing operations `run` dispatched to. -/
inductive Op where
  | POST
  | PATCH
deriving DecidableEq, Repr

/-- An error escaping `run`: either a parse failure or an exception from
the dispatched operation. -/
inductive RunErr where
  | parseFailed (e : ParseErr)
  | opFailed (e : PyErr)
deriving DecidableEq, Repr

/-- Result of one `run`: the exit status (or escaped exception), the trace
of issued HTTP requests, and which operation was invoked (the fake-transport
observation the spec's dispatch property asks for). -/
structure RunResult where
  status : Except RunErr Int
  trace : List Request
  invoked : Option Op
deriving DecidableEq, Repr

/-- The source function `run` (src/qiita.py lines 73-80), with the file
already read into `md`: parse the header, then `post` when `header.url is
None`, else `patch`. -/
def run (token md stdin : String) (postResp getResp patchResp : HttpResp) :
    RunResult :=
  match parse_header md with
  | .error e => ⟨.error (.parseFailed e), [], none⟩
  | .ok header =>
    if header.url = none then
      let r := post token header md stdin postResp
      ⟨r.1.mapError RunErr.opFailed, r.2, some Op.POST⟩
    else
      let r := patch token header md stdin getResp patchResp
      ⟨r.1.mapError RunErr.opFailed, r.2, some Op.PATCH⟩

/-- Lines strictly after the first end-marker line. -/
def dropThroughMarker : List String → List String
  | [] => []
  | l :: ls => if l = "-->" then ls else dropThroughMarker ls

/-- Modelled from the spec's words, for comparison with the source (the
source has no such function): the document body is "everything after the
end marker", i.e. the lines after the first end-marker line, rejoined. -/
def specBodyAfterMarker (md : String) : String :=
  String.intercalate "\n" (dropThroughMarker (pySplitStr chNl md))

/-- The payload of a mutating request (`none` for a read). -/
def mutBody : Request → Option String
  | .get _ _ => none
  | .post _ p _ => some p.body
  | .patchReq _ p _ => some p.body

/-- Whether a request is a POST. -/
def isMutPost : Request → Bool
  | .post _ _ _ => true
  | _ => false

/-- Whether a request is a PATCH. -/
def isMutPatch : Request → Bool
  | .patchReq _ _ _ => true
  | _ => false

/-- The key/value pairs of the metadata lines preceding the first
end-marker line (cut short at a colon-free line, where parsing fails). -/
def pairsBeforeMarker : List String → List (String × String)
  | [] => []
  | line :: rest =>
    if line = "-->" then []
    else
      match kvOf line with
      | none => []
      | some kv => kv :: pairsBeforeMarker rest

/-- The value of the last pair carrying the given key, if any. -/
def lastVal (k : String) : List (String × String) → Option String
  | [] => none
  | p :: ps =>
    match lastVal k ps with
    | some v => some v
    | none => if p.1 = k then some p.2 else none

/-- The value of the last `0url` pair whose value does not contain `TODO`
(pairs containing `TODO` are skipped by `parse_kv`), if any. -/
def lastUrl : List (String × String) → Option String
  | [] => none
  | p :: ps =>
    match lastUrl ps with
    | some v => some v
    | none =>
      if p.1 = "0url" && !(pyIn "TODO" p.2) then some p.2 else none

/-! ## Claim theorems -/

/-- Claim C2 (confirmed): parsing a document whose `0url` value is a stored
article URL records that URL in the header, and the remote identifier —
the trailing path segment the update operation addresses, exactly as
`patch` computes it on src/qiita.py line 190 — equals `abc123` for the
spec's example document. -/
theorem c2_remote_id_from_url :
    parse_header
        "<!--\n0title: Hello\n0url: https://qiita.com/api/v2/items/abc123\n-->\nbody"
      = .ok ⟨some "Hello", some "https://qiita.com/api/v2/items/abc123", none⟩ ∧
    remoteId ⟨some "Hello", some "https://qiita.com/api/v2/items/abc123", none⟩
      = some "abc123" := by
  decide

/-- Claim C8 (confirmed): the spec's example document parses to title
`Hello`, an unset remote identifier (the `0url` value contains `TODO`), and
tags `["a", "b", "c"]` in order. -/
theorem c8_parse_example :
    parse_header "<!--\n0title: Hello\n0url: TODO-later\ntags: a b c\n-->\nbody text"
      = .ok ⟨some "Hello", none, some ["a", "b", "c"]⟩ := by
  decide

/-- Claim C6 (confirmed): the confirmation gate accepts exactly the inputs
whose stripped, lowercased form is `y` or `yes`; every other input,
the empty string included, declines. -/
theorem c6_confirm_iff (s : String) :
    confirm s = true ↔
      (pyLower (pyStrip s) = "y" ∨ pyLower (pyStrip s) = "yes") := by
  unfold confirm
  by_cases h : pyLower (pyStrip s) ∈ ["y", "yes"]
  · have h' : pyLower (pyStrip s) = "y" ∨ pyLower (pyStrip s) = "yes" := by
      simpa using h
    simp [h, h']
  · have h' : ¬(pyLower (pyStrip s) = "y" ∨ pyLower (pyStrip s) = "yes") := by
      simpa using h
    simp [h, h']

/-- Claim C5 (code bug): evaluated on a header whose `tags` attribute was
never assigned (the case for every document without a `tags:` line, since
the custom `__init__` defeats the dataclass default), both `post` and
`patch` raise `AttributeError` while building the tag payload — before the
confirmation prompt — instead of returning exit status 1 on decline. No
mutating request is issued either way. With the attribute assigned (a
`tags:` line present) the operations behave as the claim states: exit
status 1 and no POST or PATCH in the trace. -/
theorem c5_decline_crash_eval :
    post "tok" ⟨some "T", none, none⟩ "body" "n" ⟨200⟩
      = (.error .attributeErrorTags, []) ∧
    patch "tok" ⟨some "T", some "https://qiita.com/api/v2/items/abc", none⟩
        "body" "n" ⟨200⟩ ⟨200⟩
      = (.error .attributeErrorTags, []) ∧
    (Except.error PyErr.attributeErrorTags : Except PyErr Int) ≠ .ok 1 ∧
    post "tok" ⟨some "T", none, some []⟩ "body" "n" ⟨200⟩ = (.ok 1, []) ∧
    patch "tok" ⟨some "T", some "https://qiita.com/api/v2/items/abc", some []⟩
        "body" "n" ⟨200⟩ ⟨200⟩
      = (.ok 1, [Request.get "https://qiita.com/api/v2/items/abc" "tok"]) := by
  decide

/-- Claim C1 counterexample: for the document `<!--\ntags: a\n-->\nBODY`,
an accepted create submits a payload whose body is the whole document —
header block included — and not `BODY`, the text after the end-marker line
that the claim promises. -/
theorem c1_counterexample :
    parse_header "<!--\ntags: a\n-->\nBODY" = .ok ⟨none, none, some ["a"]⟩ ∧
    (post "tok" ⟨none, none, some ["a"]⟩ "<!--\ntags: a\n-->\nBODY" "y" ⟨200⟩).2
      = [Request.post "https://qiita.com/api/v2/items"
          ⟨"<!--\ntags: a\n-->\nBODY", [⟨"a", []⟩], none⟩ "tok"] ∧
    specBodyAfterMarker "<!--\ntags: a\n-->\nBODY" = "BODY" ∧
    "<!--\ntags: a\n-->\nBODY" ≠ "BODY" := by
  decide

/-- Claim C1 (amended): the body submitted as payload in both the create
(POST) and update (PATCH) requests is the entire document text, verbatim,
header block included. With the prompt accepted, readable tags, and (for
update) a set URL and a successful read, each operation issues its mutating
request with payload body equal to the full document `md`. -/
theorem c1_whole_document_submitted (token md stdin : String)
    (h : ArticleHeader) (tg : List String) (u : String) (pr gr qr : HttpResp)
    (hc : confirm stdin = true) (ht : h.tags = some tg) (hu : h.url = some u)
    (hg : raisesForStatus gr.status = false) :
    (post token h md stdin pr).2
      = [Request.post "https://qiita.com/api/v2/items"
          ⟨md, tg.map (fun x => ⟨x, []⟩), h.title⟩ token] ∧
    (patch token h md stdin gr qr).2
      = [Request.get ("https://qiita.com/api/v2/items/" ++ trailSeg u) token,
         Request.patchReq ("https://qiita.com/api/v2/items/" ++ trailSeg u)
           ⟨md, tg.map (fun x => ⟨x, []⟩), h.title⟩ token] := by
  unfold post patch
  rw [ht, hu]
  simp only [hc, hg, if_true, Bool.false_eq_true, if_false]
  constructor
  · cases hpr : raisesForStatus pr.status <;> simp
  · cases hqr : raisesForStatus qr.status <;> simp

/-- Witness for the amended claim C1 at a concrete input. -/
theorem c1_whole_document_submitted_w :
    confirm "y" = true ∧
    (⟨none, some "u/x", some ["a"]⟩ : ArticleHeader).tags = some ["a"] ∧
    (⟨none, some "u/x", some ["a"]⟩ : ArticleHeader).url = some "u/x" ∧
    raisesForStatus (200 : Nat) = false ∧
    ((post "t" ⟨none, some "u/x", some ["a"]⟩ "DOC" "y" ⟨200⟩).2
        = [Request.post "https://qiita.com/api/v2/items"
            ⟨"DOC", [⟨"a", []⟩], none⟩ "t"] ∧
      (patch "t" ⟨none, some "u/x", some ["a"]⟩ "DOC" "y" ⟨200⟩ ⟨200⟩).2
        = [Request.get ("https://qiita.com/api/v2/items/" ++ trailSeg "u/x") "t",
           Request.patchReq ("https://qiita.com/api/v2/items/" ++ trailSeg "u/x")
             ⟨"DOC", [⟨"a", []⟩], none⟩ "t"]) :=
  ⟨by decide, rfl, rfl, by decide,
    c1_whole_document_submitted "t" "DOC" "y" ⟨none, some "u/x", some ["a"]⟩
      ["a"] "u/x" ⟨200⟩ ⟨200⟩ ⟨200⟩ (by decide) rfl rfl (by decide)⟩

/-- Claim C4 counterexample: the document `<!--\nnocolon\n-->\nb` has the
start marker on line 1 and a colon-free metadata line before the end
marker, yet parsing fails with the bare `ValueError` from tuple unpacking —
not a `QiitaException` (the program's `MalformedHeader`) — and the error
value is identical whether the offending line is line 2 or line 3, so it
cannot name the line number. -/
theorem c4_counterexample :
    parse_header "<!--\nnocolon\n-->\nb"
      = .error .valueErrorNotEnoughValues ∧
    isQiitaException .valueErrorNotEnoughValues = false ∧
    parse_header "<!--\na: b\nnocolon\n-->\nb"
      = parse_header "<!--\nnocolon\n-->\nb" := by
  decide

/-- Claim C7 counterexample: the document `<!--\nnocolon` has the start
marker on line 1 and no end-marker line at all, yet parsing fails with the
`ValueError` from the colon-free line 2, not with the "--> not found"
`QiitaException` (UnterminatedHeader). -/
theorem c7_counterexample :
    parse_header "<!--\nnocolon" = .error .valueErrorNotEnoughValues ∧
    ParseErr.valueErrorNotEnoughValues ≠ ParseErr.qiitaEndNotFound := by
  decide

/-- Claim C9 counterexample: when `0url` occurs twice and the later value
contains `TODO`, the later occurrence does not overwrite the earlier one:
the parsed URL stays `https://x/y`, which is neither the later raw value
`TODO` nor unset. -/
theorem c9_counterexample :
    parse_header "<!--\n0url: https://x/y\n0url: TODO\n-->\nb"
      = .ok ⟨none, some "https://x/y", none⟩ ∧
    ("https://x/y" : String) ≠ "TODO" ∧
    (some "https://x/y" : Option String) ≠ none := by
  decide

/-- The create operation never issues a PATCH request, whatever the inputs. -/
lemma post_trace_no_patch (token : String) (h : ArticleHeader)
    (md stdin : String) (r : HttpResp) :
    ((post token h md stdin r).2.all fun rq => !isMutPatch rq) = true := by
  unfold post
  rcases htg : h.tags with _ | tg <;> simp [htg]
  by_cases hc : confirm stdin <;> simp [hc]
  cases hr : raisesForStatus r.status <;> simp [hr, isMutPatch]

/-- The update operation never issues a POST request, whatever the inputs. -/
lemma patch_trace_no_post (token : String) (h : ArticleHeader)
    (md stdin : String) (gr qr : HttpResp) :
    ((patch token h md stdin gr qr).2.all fun rq => !isMutPost rq) = true := by
  unfold patch
  rcases htg : h.tags with _ | tg <;> simp [htg]
  rcases hu : h.url with _ | u <;> simp [hu]
  cases hg : raisesForStatus gr.status <;> simp [hg, isMutPost]
  by_cases hc : confirm stdin <;> simp [hc, isMutPost]
  cases hq : raisesForStatus qr.status <;> simp [hq, isMutPost]

/-- Claim C3 (confirmed): for every document whose header parses, `run`
invokes the create operation exactly when the header URL is unset and the
update operation exactly when it is set — exactly one of the two, never
both — and the issued trace contains no PATCH request on the create path
and no POST request on the update path. -/
theorem c3_dispatch_exclusive (token md stdin : String) (pr gr qr : HttpResp)
    (h : ArticleHeader) (hp : parse_header md = .ok h) :
    ((run token md stdin pr gr qr).invoked = some Op.POST ↔ h.url = none) ∧
    ((run token md stdin pr gr qr).invoked = some Op.PATCH ↔ h.url ≠ none) ∧
    (h.url = none →
      ((run token md stdin pr gr qr).trace.all fun rq => !isMutPatch rq) = true) ∧
    (h.url ≠ none →
      ((run token md stdin pr gr qr).trace.all fun rq => !isMutPost rq) = true) := by
  unfold run
  rw [hp]
  by_cases hu : h.url = none <;> simp [hu]
  · simpa using post_trace_no_patch token h md stdin pr
  · simpa using patch_trace_no_post token h md stdin gr qr

/-- Witness for claim C3 at a concrete document without a stored URL. -/
theorem c3_dispatch_exclusive_w :
    parse_header "<!--\n-->\nb" = .ok ⟨none, none, none⟩ ∧
    (((run "t" "<!--\n-->\nb" "n" ⟨200⟩ ⟨200⟩ ⟨200⟩).invoked = some Op.POST ↔
        (⟨none, none, none⟩ : ArticleHeader).url = none) ∧
      ((run "t" "<!--\n-->\nb" "n" ⟨200⟩ ⟨200⟩ ⟨200⟩).invoked = some Op.PATCH ↔
        (⟨none, none, none⟩ : ArticleHeader).url ≠ none) ∧
      ((⟨none, none, none⟩ : ArticleHeader).url = none →
        ((run "t" "<!--\n-->\nb" "n" ⟨200⟩ ⟨200⟩ ⟨200⟩).trace.all
          fun rq => !isMutPatch rq) = true) ∧
      ((⟨none, none, none⟩ : ArticleHeader).url ≠ none →
        ((run "t" "<!--\n-->\nb" "n" ⟨200⟩ ⟨200⟩ ⟨200⟩).trace.all
          fun rq => !isMutPost rq) = true)) :=
  ⟨by decide,
    c3_dispatch_exclusive "t" "<!--\n-->\nb" "n" ⟨200⟩ ⟨200⟩ ⟨200⟩
      ⟨none, none, none⟩ (by decide)⟩

/-- A colon-free line reached before any end-marker line makes the parse
loop fail with the unpacking `ValueError`, whatever came before it. -/
lemma processLines_nocolon (line : String) (rest : List String)
    (hnc : kvOf line = none) (hne : line ≠ "-->") :
    ∀ (pre : List String) (i : Nat) (h : ArticleHeader), "-->" ∉ pre →
      processLines i h (pre ++ line :: rest)
        = .error .valueErrorNotEnoughValues := by
  intro pre
  induction pre with
  | nil => intro i h _; simp [processLines, hne, hnc]
  | cons p ps ih =>
    intro i h hmem
    have hp : p ≠ "-->" := fun he => hmem (he ▸ List.mem_cons_self p ps)
    have hps : "-->" ∉ ps := fun hm => hmem (List.mem_cons_of_mem p hm)
    simp only [List.cons_append, processLines]
    rw [if_neg hp]
    rcases hk : kvOf p with _ | kv <;> simp [hk]
    exact ih _ _ hps

/-- Claim C4 (amended): a document with the start marker on line 1 and a
colon-free metadata line before any end-marker line fails to parse, but
with the bare Python `ValueError` from tuple unpacking — an error that is
not the program's `QiitaException` (`MalformedHeader`) and names no line
number. -/
theorem c4_nocolon_valueerror (md : String) (pre : List String) (line : String)
    (rest : List String) (h1 : firstLineField md = "<!--")
    (h2 : docLines md = pre ++ line :: rest) (h3 : kvOf line = none)
    (h4 : line ≠ "-->") (h5 : "-->" ∉ pre) :
    parse_header md = .error .valueErrorNotEnoughValues ∧
    isQiitaException .valueErrorNotEnoughValues = false := by
  refine ⟨?_, rfl⟩
  unfold parse_header
  rw [h1, h2]
  simp [processLines_nocolon line rest h3 h4 pre 2 emptyHeader h5]

/-- Witness for the amended claim C4 at a concrete document. -/
theorem c4_nocolon_valueerror_w :
    firstLineField "<!--\nnocolon\n-->\nb" = "<!--" ∧
    docLines "<!--\nnocolon\n-->\nb" = [] ++ "nocolon" :: ["-->", "b"] ∧
    kvOf "nocolon" = none ∧
    ("nocolon" : String) ≠ "-->" ∧
    "-->" ∉ ([] : List String) ∧
    (parse_header "<!--\nnocolon\n-->\nb" = .error .valueErrorNotEnoughValues ∧
      isQiitaException .valueErrorNotEnoughValues = false) :=
  ⟨by decide, by decide, by decide, by decide, by decide,
    c4_nocolon_valueerror "<!--\nnocolon\n-->\nb" [] "nocolon" ["-->", "b"]
      (by decide) (by decide) (by decide) (by decide) (by decide)⟩

/-- When every line is a colon-carrying non-marker line, the parse loop
exhausts the document and raises the "--> not found" exception. -/
lemma processLines_all_colons :
    ∀ (lines : List String) (i : Nat) (h : ArticleHeader),
      (∀ l ∈ lines, l ≠ "-->" ∧ (kvOf l).isSome = true) →
      processLines i h lines = .error .qiitaEndNotFound := by
  intro lines
  induction lines with
  | nil => intro i h _; simp [processLines]
  | cons p ps ih =>
    intro i h hall
    obtain ⟨hp, hk⟩ := hall p (List.mem_cons_self p ps)
    rcases hkv : kvOf p with _ | kv
    · rw [hkv] at hk; simp at hk
    · simp only [processLines]
      rw [if_neg hp, hkv]
      exact ih _ _ (fun l hl => hall l (List.mem_cons_of_mem p hl))

/-- Claim C7 (amended): a document with the start marker on line 1, no
end-marker line, and a colon on every subsequent line fails with the
"--> not found" `QiitaException` (UnterminatedHeader). Without the
colon condition the parse can fail earlier with the unpacking
`ValueError` instead. -/
theorem c7_unterminated_when_all_colons (md : String)
    (h1 : firstLineField md = "<!--")
    (h2 : ∀ l ∈ docLines md, l ≠ "-->" ∧ (kvOf l).isSome = true) :
    parse_header md = .error .qiitaEndNotFound := by
  unfold parse_header
  rw [h1]
  simp [processLines_all_colons (docLines md) 2 emptyHeader h2]

/-- Witness for the amended claim C7 at a concrete document. -/
theorem c7_unterminated_when_all_colons_w :
    firstLineField "<!--\na: b" = "<!--" ∧
    (∀ l ∈ docLines "<!--\na: b", l ≠ "-->" ∧ (kvOf l).isSome = true) ∧
    parse_header "<!--\na: b" = .error .qiitaEndNotFound :=
  ⟨by decide, by decide,
    c7_unterminated_when_all_colons "<!--\na: b" (by decide) (by decide)⟩

/-- Effect of one `parse_kv` application on the title field. -/
lemma applyKV_title (h : ArticleHeader) (k v : String) :
    (applyKV h k v).title = if k = "0title" then some v else h.title := by
  unfold applyKV
  split_ifs with h1 h2 h3 h4 h5 <;> simp_all

/-- Effect of one `parse_kv` application on the url field. -/
lemma applyKV_url (h : ArticleHeader) (k v : String) :
    (applyKV h k v).url =
      if k = "0url" then (if pyIn "TODO" v then h.url else some v)
      else h.url := by
  unfold applyKV
  split_ifs with h1 h2 h3 h4 h5 <;> simp_all

/-- Effect of one `parse_kv` application on the tags field. -/
lemma applyKV_tags (h : ArticleHeader) (k v : String) :
    (applyKV h k v).tags =
      if k = "tags" then some (splitTags v) else h.tags := by
  unfold applyKV
  split_ifs with h1 h2 h3 h4 h5 <;> simp_all

/-- Folding `parse_kv` over key/value pairs leaves in the title the value
of the last `0title` pair, if any. -/
lemma foldl_applyKV_title (ps : List (String × String)) :
    ∀ h : ArticleHeader,
      (ps.foldl (fun a p => applyKV a p.1 p.2) h).title
        = (lastVal "0title" ps).or h.title := by
  induction ps with
  | nil => intro h; simp [lastVal, Option.or]
  | cons p ps ih =>
    intro h
    simp only [List.foldl_cons, lastVal]
    rw [ih]
    rcases hl : lastVal "0title" ps with _ | v
    · by_cases hk : p.1 = "0title" <;>
        simp [hk, Option.or, applyKV_title]
    · simp [Option.or]

/-- Folding `parse_kv` over key/value pairs leaves in the url the value of
the last `0url` pair whose value does not contain `TODO`, if any. -/
lemma foldl_applyKV_url (ps : List (String × String)) :
    ∀ h : ArticleHeader,
      (ps.foldl (fun a p => applyKV a p.1 p.2) h).url
        = (lastUrl ps).or h.url := by
  induction ps with
  | nil => intro h; simp [lastUrl, Option.or]
  | cons p ps ih =>
    intro h
    simp only [List.foldl_cons, lastUrl]
    rw [ih]
    rcases hl : lastUrl ps with _ | v
    · by_cases hk : p.1 = "0url" <;>
        by_cases ht : pyIn "TODO" p.2 <;>
          simp [hk, ht, Option.or, applyKV_url]
    · simp [Option.or]

/-- Folding `parse_kv` over key/value pairs leaves in the tags the split
value of the last `tags` pair, if any. -/
lemma foldl_applyKV_tags (ps : List (String × String)) :
    ∀ h : ArticleHeader,
      (ps.foldl (fun a p => applyKV a p.1 p.2) h).tags
        = ((lastVal "tags" ps).map splitTags).or h.tags := by
  induction ps with
  | nil => intro h; simp [lastVal, Option.or]
  | cons p ps ih =>
    intro h
    simp only [List.foldl_cons, lastVal]
    rw [ih]
    rcases hl : lastVal "tags" ps with _ | v
    · by_cases hk : p.1 = "tags" <;>
        simp [hk, Option.or, applyKV_tags]
    · simp [Option.or]

/-- A successful parse loop is the fold of `parse_kv` over the key/value
pairs before the end marker. -/
lemma processLines_ok_foldl :
    ∀ (lines : List String) (i : Nat) (h h' : ArticleHeader),
      processLines i h lines = .ok h' →
      h' = (pairsBeforeMarker lines).foldl (fun a p => applyKV a p.1 p.2) h := by
  intro lines
  induction lines with
  | nil => intro i h h' hp; simp [processLines] at hp
  | cons line rest ih =>
    intro i h h' hp
    by_cases hm : line = "-->"
    · simp [processLines, hm] at hp
      simp [pairsBeforeMarker, hm]
      exact hp.symm
    · rcases hk : kvOf line with _ | kv
      · simp [processLines, hm, hk] at hp
      · simp only [processLines, if_neg hm, hk] at hp
        have hh := ih _ _ _ hp
        simp only [pairsBeforeMarker, if_neg hm, hk, List.foldl_cons]
        exact hh

/-- Claim C9 (amended): in a successfully parsed header, `0title` and
`tags` take the value of their last occurrence; `0url` takes the value of
its last occurrence whose value does not contain `TODO` — occurrences
containing `TODO` are skipped and leave the field unchanged. -/
theorem c9_last_occurrence_wins (md : String) (h : ArticleHeader)
    (hp : parse_header md = .ok h) :
    h.title = lastVal "0title" (pairsBeforeMarker (docLines md)) ∧
    h.url = lastUrl (pairsBeforeMarker (docLines md)) ∧
    h.tags = (lastVal "tags" (pairsBeforeMarker (docLines md))).map splitTags := by
  unfold parse_header at hp
  by_cases hf : firstLineField md ≠ "<!--"
  · simp [hf] at hp
  · rw [if_neg hf] at hp
    have hb := processLines_ok_foldl (docLines md) 2 emptyHeader h hp
    refine ⟨?_, ?_, ?_⟩ <;> rw [hb]
    · rw [foldl_applyKV_title]
      cases lastVal "0title" (pairsBeforeMarker (docLines md)) <;> rfl
    · rw [foldl_applyKV_url]
      cases lastUrl (pairsBeforeMarker (docLines md)) <;> rfl
    · rw [foldl_applyKV_tags]
      cases lastVal "tags" (pairsBeforeMarker (docLines md)) <;> rfl

/-- Witness for the amended claim C9 at a document where every recognized
key occurs twice. -/
theorem c9_last_occurrence_wins_w :
    parse_header "<!--\n0title: A\n0title: B\ntags: x\ntags: y z\n0url: u/1\n0url: u/2\n-->\nb"
      = .ok ⟨some "B", some "u/2", some ["y", "z"]⟩ ∧
    ((⟨some "B", some "u/2", some ["y", "z"]⟩ : ArticleHeader).title
        = lastVal "0title" (pairsBeforeMarker (docLines
            "<!--\n0title: A\n0title: B\ntags: x\ntags: y z\n0url: u/1\n0url: u/2\n-->\nb")) ∧
      (⟨some "B", some "u/2", some ["y", "z"]⟩ : ArticleHeader).url
        = lastUrl (pairsBeforeMarker (docLines
            "<!--\n0title: A\n0title: B\ntags: x\ntags: y z\n0url: u/1\n0url: u/2\n-->\nb")) ∧
      (⟨some "B", some "u/2", some ["y", "z"]⟩ : ArticleHeader).tags
        = (lastVal "tags" (pairsBeforeMarker (docLines
            "<!--\n0title: A\n0title: B\ntags: x\ntags: y z\n0url: u/1\n0url: u/2\n-->\nb"))).map
            splitTags) :=
  ⟨by decide,
    c9_last_occurrence_wins
      "<!--\n0title: A\n0title: B\ntags: x\ntags: y z\n0url: u/1\n0url: u/2\n-->\nb"
      ⟨some "B", some "u/2", some ["y", "z"]⟩ (by decide)⟩

/-- The Python one-character split never yields an empty group list. -/
lemma pySplitCh_ne_nil (sep : Char) (l : List Char) : pySplitCh sep l ≠ [] := by
  cases l with
  | nil => simp [pySplitCh]
  | cons c cs =>
    unfold pySplitCh
    by_cases h : c = sep
    · simp [h]
    · rcases hs : pySplitCh sep cs with _ | ⟨g, gs⟩ <;> simp [h, hs]

/-- Two adjacent separators put an empty group strictly after the first
group of the split. -/
lemma doubleSep_mem_tail (sep : Char) :
    ∀ l : List Char, listHasSub [sep, sep] l = true →
      [] ∈ (pySplitCh sep l).tail := by
  intro l
  induction l with
  | nil => intro h; simp [listHasSub, listHasLead] at h
  | cons c cs ih =>
    intro h
    rw [listHasSub] at h
    have hor : listHasLead [sep, sep] (c :: cs) = true ∨
        listHasSub [sep, sep] cs = true := by simpa using h
    rcases hor with hl | hs
    · rw [listHasLead] at hl
      have hand : sep = c ∧ listHasLead [sep] cs = true := by simpa using hl
      obtain ⟨hc, hl2⟩ := hand
      cases cs with
      | nil => rw [listHasLead] at hl2; simp at hl2
      | cons d ds =>
        rw [listHasLead] at hl2
        have hand2 : sep = d ∧ listHasLead [] ds = true := by simpa using hl2
        have hd : sep = d := hand2.1
        subst hc
        subst hd
        simp [pySplitCh]
    · have ihm := ih hs
      rcases hps : pySplitCh sep cs with _ | ⟨g, gs⟩
      · exact absurd hps (pySplitCh_ne_nil sep cs)
      · rw [hps, List.tail_cons] at ihm
        by_cases hc : c = sep
        · simp only [pySplitCh, if_pos hc, hps, List.tail_cons]
          exact List.mem_cons_of_mem g ihm
        · simp only [pySplitCh, if_neg hc, hps, List.tail_cons]
          exact ihm

/-- A `tags:` line always stores the split value. -/
lemma applyKV_tags_val (h : ArticleHeader) (v : String) :
    (applyKV h "tags" v).tags = some (splitTags v) := by
  unfold applyKV
  rw [if_neg (by decide), if_neg (by decide), if_neg (by decide), if_pos rfl]

/-- Claim C10 (confirmed): a `tags` value that is empty or contains two
consecutive spaces produces a tag list containing the empty string — empty
fragments are never dropped; in particular the empty value yields `[""]`
and `a  b` yields `["a", "", "b"]`. -/
theorem c10_empty_fragments_kept (h : ArticleHeader) (v : String)
    (hv : v = "" ∨ listHasSub [chSpace, chSpace] v.data = true) :
    "" ∈ ((applyKV h "tags" v).tags.getD []) ∧
    (applyKV h "tags" "").tags = some [""] ∧
    (applyKV h "tags" "a  b").tags = some ["a", "", "b"] := by
  refine ⟨?_, ?_, ?_⟩
  · rw [applyKV_tags_val, Option.getD_some]
    rcases hv with hv | hv
    · subst hv; decide
    · have hm := doubleSep_mem_tail chSpace v.data hv
      have hm2 : [] ∈ pySplitCh chSpace v.data := by
        rcases hps : pySplitCh chSpace v.data with _ | ⟨g, gs⟩
        · exact absurd hps (pySplitCh_ne_nil chSpace v.data)
        · rw [hps, List.tail_cons] at hm
          exact hps ▸ List.mem_cons_of_mem g hm
      show ("" : String) ∈ splitTags v
      have he : ("" : String) = String.mk (stripList []) := rfl
      rw [he]
      exact List.mem_map_of_mem (fun g => String.mk (stripList g)) hm2
  · rw [applyKV_tags_val]; decide
  · rw [applyKV_tags_val]; decide

/-- Witness for claim C10 at the value with two consecutive spaces. -/
theorem c10_empty_fragments_kept_w :
    (("a  b" : String) = "" ∨
      listHasSub [chSpace, chSpace] ("a  b" : String).data = true) ∧
    ("" ∈ ((applyKV emptyHeader "tags" "a  b").tags.getD []) ∧
      (applyKV emptyHeader "tags" "").tags = some [""] ∧
      (applyKV emptyHeader "tags" "a  b").tags = some ["a", "", "b"]) :=
  ⟨Or.inr (by decide),
    c10_empty_fragments_kept emptyHeader "a  b" (Or.inr (by decide))⟩

end Qiita
